import Mathlib

/-!
# Verification of the pull-requests tree data provider

Shallow embedding of `src/view/prsTreeDataProvider.ts`
(`PullRequestsTreeDataProvider`): the root-state resolver (`getChildren`),
the needs-remotes sub-resolution (`needsRemotes`), the memoized environment
classifier (`isVSO`), one-time initialization (`initialize`, embedded here
as `initTree`), and the tracking/disposal of the top-level generation of
tree nodes (`_childrenDisposables`).

Modelling conventions:
* The provider's mutable fields become the record `ProviderState`; each
  method is a pure function from (environment, arguments, state) to
  (result, new state).
* Code that can `throw`/reject returns `Except`.
* Disposable instances (the top-level tree nodes stored in
  `_childrenDisposables`) are identified by natural-number ids drawn from a
  monotone counter `nextId`; calling `dispose()` on an instance is recorded
  by appending its id to `disposedLog`.
* External collaborators read at call time (`vscode.workspace` folders, the
  remotes allow-list setting, the external-uri probe, and the size of the
  output of the external category-node builder) are gathered in `Env`.
-/

/-- State enumeration of the pull-request manager
(`PRManagerState` from `../github/folderPullRequestManager`). -/
inductive PRManagerState where
  | Initializing
  | NeedsAuthentication
  | RepositoriesLoaded
deriving DecidableEq, Repr

/-- One folder manager, as observed by the provider: `getGitHubRemotes()`
(the remotes recognized as GitHub ones) and `repository.state.remotes`
(all version-control remotes of the underlying repository), plus
`repository.rootUri`. The two remote lists are distinct accessors in the
source and are modelled as independent fields. -/
structure FolderManager where
  rootUri : String
  githubRemotes : List String
  repoStateRemotes : List String
deriving DecidableEq, Repr

/-- The pull-request manager attached by `initialize`: a `state` and the
list of per-folder managers (`folderManagers`). -/
structure PullRequestManager where
  state : PRManagerState
  folderManagers : List FolderManager
deriving DecidableEq, Repr

/-- The `PRCategoryActionType` values used by the provider. -/
inductive PRCategoryActionType where
  | NoOpenFolder
  | NoGitRepositories
  | Initializing
  | NoRemotes
  | NoMatchingRemotes
  | ConfigureRemotes
  | Empty
deriving DecidableEq, Repr

/-- Tree nodes as the provider distinguishes them:
* `categoryAction t`: a `PRCategoryActionNode` placeholder (childless);
* `workspaceFolder uri vso id`: a `WorkspaceFolderNode` built in the
  multi-folder branch from a folder manager's `repository.rootUri` and the
  environment classification; `id` is the disposable-instance identity;
* `category id`: one node produced by the external builder
  `WorkspaceFolderNode.getCategoryTreeNodes` (its content is opaque to the
  provider; `id` is the instance identity);
* `plain cs`: an arbitrary external node whose own `getChildren` yields
  `cs` (used as the `element` argument of non-root passes, whose child
  resolution the provider delegates). -/
inductive TreeNode where
  | categoryAction (t : PRCategoryActionType)
  | workspaceFolder (rootUri : String) (vso : Bool) (id : Nat)
  | category (id : Nat)
  | plain (children : List TreeNode)
deriving Repr

/-- `element.getChildren()` for the node kinds of the model. Placeholder
nodes are childless; the children of a `plain` node are whatever its own
(external) builder returns; the children of `workspaceFolder` and
`category` nodes are built by external code that the provider only
delegates to, so they are opaque here. -/
def TreeNode.nodeChildren : TreeNode → List TreeNode
  | TreeNode.plain cs => cs
  | _ => []

/-- Whether a node is a `WorkspaceFolderNode` wrapper. -/
def TreeNode.isWorkspaceFolderNode : TreeNode → Bool
  | TreeNode.workspaceFolder _ _ _ => true
  | _ => false

/-- The disposable-instance id attached to a top-level node, when it has
one. -/
def TreeNode.attachedId : TreeNode → Option Nat
  | TreeNode.workspaceFolder _ _ i => some i
  | TreeNode.category i => some i
  | _ => none

/-- The disposable resources attached to a generation of top-level nodes. -/
def generationIds (nodes : List TreeNode) : List Nat :=
  nodes.filterMap TreeNode.attachedId

/-- External inputs read during a resolution pass:
`workspaceFolders` is the truthiness of `vscode.workspace.workspaceFolders`;
`remotesSetting` is the configured remotes allow-list (`none` when the
setting is absent); `probe` is the outcome the external-uri resolution
would deliver (`Except.error` when the promise rejects); and
`categoryNodeCount` is the number of nodes the external builder
`WorkspaceFolderNode.getCategoryTreeNodes` returns for the single-folder
branch (opaque external code, parameterized by its size only). -/
structure Env where
  workspaceFolders : Bool
  remotesSetting : Option (List String)
  probe : Except Unit Bool
  categoryNodeCount : Nat
deriving Repr

/-- The provider's mutable fields. `inited` embeds `_initialized`;
`prManager` embeds `_prManager` (absent until `initialize`);
`disposables` embeds `_disposables` (ids of registered subscriptions);
`childrenDisposables` embeds `_childrenDisposables` (ids of the tracked
top-level generation); `isVSOCache` embeds `_isVSO`; `probeCount` counts
performed external probes; `disposedLog` records every `dispose()` call in
order; `nextId` is the fresh-instance counter; `refreshCount` counts
`refresh()` calls. -/
structure ProviderState where
  prManager : Option PullRequestManager
  inited : Bool
  disposables : List Nat
  childrenDisposables : List Nat
  isVSOCache : Option Bool
  probeCount : Nat
  disposedLog : List Nat
  nextId : Nat
  refreshCount : Nat
deriving DecidableEq, Repr

/-- Well-formedness of a provider state: every id it refers to was drawn
from the counter (is below `nextId`). -/
def ProviderState.wf (s : ProviderState) : Prop :=
  (∀ i ∈ s.disposedLog, i < s.nextId) ∧ (∀ i ∈ s.childrenDisposables, i < s.nextId)

instance (s : ProviderState) : Decidable s.wf := by
  unfold ProviderState.wf
  infer_instance

/-- The memoized environment classifier `isVSO()`. Given the probe outcome
and the current cache, returns (the call's outcome, the new cache, how many
external probes this call performed). A cached value is returned without
probing; otherwise the probe runs once, and only a successful result is
cached — a rejection propagates and leaves the cache empty. -/
def isVSO (probe : Except Unit Bool) (cache : Option Bool) :
    Except Unit Bool × Option Bool × Nat :=
  match cache with
  | some b => (Except.ok b, some b, 0)
  | none =>
    match probe with
    | Except.ok b => (Except.ok b, some b, 1)
    | Except.error e => (Except.error e, none, 1)

/-- `n` sequential calls of `isVSO` against a fixed probe outcome,
threading the cache; returns (the list of outcomes, the final cache, the
total number of probes performed). -/
def isVSOcalls (probe : Except Unit Bool) : Nat → Option Bool →
    List (Except Unit Bool) × Option Bool × Nat
  | 0, cache => ([], cache, 0)
  | n + 1, cache =>
    let r := isVSO probe cache
    let rest := isVSOcalls probe n r.2.1
    (r.1 :: rest.1, rest.2.1, r.2.2 + rest.2.2)

/-- Modelled from the spec: `WorkspaceFolderNode.getCategoryTreeNodes`
(defined in `src/view/treeNodes/workspaceFolderNode.ts`, which is not part
of the provided source) builds the single folder's category nodes. The
spec treats its output as opaque top-level nodes carrying attached
disposable resources, so it is modelled as `count` fresh category-node
instances with ids starting at `baseId`. -/
def getCategoryTreeNodes (count : Nat) (baseId : Nat) : List TreeNode :=
  (List.range count).map (fun i => TreeNode.category (baseId + i))

/-- The `WorkspaceFolderNode` generation built in the multi-folder branch:
one wrapper per folder manager, in list order, with fresh instance ids. -/
def mkWorkspaceNodes (fms : List FolderManager) (vso : Bool) (baseId : Nat) :
    List TreeNode :=
  match fms with
  | [] => []
  | fm :: rest => TreeNode.workspaceFolder fm.rootUri vso baseId ::
      mkWorkspaceNodes rest vso (baseId + 1)

/-- The `needsRemotes()` sub-resolution: empty when authentication is
pending; `[NoMatchingRemotes, ConfigureRemotes]` when the remotes
allow-list setting is configured; `[NoRemotes]` otherwise. -/
def needsRemotes (env : Env) (pm : PullRequestManager) : List TreeNode :=
  if pm.state = PRManagerState.NeedsAuthentication then
    []
  else if env.remotesSetting.isSome then
    [TreeNode.categoryAction PRCategoryActionType.NoMatchingRemotes,
     TreeNode.categoryAction PRCategoryActionType.ConfigureRemotes]
  else
    [TreeNode.categoryAction PRCategoryActionType.NoRemotes]

/-- `getChildren(element?)`, the root-state resolver. Follows the source
line by line: manager-absent placeholders; the `Initializing` placeholder;
the GitHub-remote gate delegating to `needsRemotes`; at the root
(`element` absent) disposal of the tracked generation, the environment
classification, and the single-folder (untracked) versus multi-folder
(tracked) materialization; at depth the repository-remote gate returning
the `Empty` placeholder, else delegation to the element's own children. -/
def getChildren (env : Env) (element : Option TreeNode) (s : ProviderState) :
    Except Unit (List TreeNode) × ProviderState :=
  match s.prManager with
  | none =>
    if env.workspaceFolders then
      (Except.ok [TreeNode.categoryAction PRCategoryActionType.NoGitRepositories], s)
    else
      (Except.ok [TreeNode.categoryAction PRCategoryActionType.NoOpenFolder], s)
  | some pm =>
    if pm.state = PRManagerState.Initializing then
      (Except.ok [TreeNode.categoryAction PRCategoryActionType.Initializing], s)
    else if (pm.folderManagers.filter (fun m => 0 < m.githubRemotes.length)).length = 0 then
      (Except.ok (needsRemotes env pm), s)
    else
      match element with
      | none =>
        let s1 : ProviderState :=
          { s with disposedLog := s.disposedLog ++ s.childrenDisposables }
        match isVSO env.probe s1.isVSOCache with
        | (Except.error e, c, k) =>
          (Except.error e, { s1 with isVSOCache := c, probeCount := s1.probeCount + k })
        | (Except.ok vso, c, k) =>
          let s2 : ProviderState :=
            { s1 with isVSOCache := c, probeCount := s1.probeCount + k }
          if pm.folderManagers.length = 1 then
            (Except.ok (getCategoryTreeNodes env.categoryNodeCount s2.nextId),
             { s2 with nextId := s2.nextId + env.categoryNodeCount })
          else
            let nodes := mkWorkspaceNodes pm.folderManagers vso s2.nextId
            (Except.ok nodes,
             { s2 with childrenDisposables := generationIds nodes,
                       nextId := s2.nextId + pm.folderManagers.length })
      | some el =>
        if (pm.folderManagers.filter (fun m => 0 < m.repoStateRemotes.length)).length = 0 then
          (Except.ok [TreeNode.categoryAction PRCategoryActionType.Empty], s)
        else
          (Except.ok el.nodeChildren, s)

/-- `initialize(prManager)`, embedded as `initTree`: throws when already
initialized (leaving the state untouched); otherwise sets the flag,
attaches the manager, registers the state-change subscription, one
repository-change subscription per folder manager, and the queries
configuration subscription (from `initializeCategories`), and fires a
refresh. -/
def initTree (pm : PullRequestManager) (s : ProviderState) :
    ProviderState × Except String Unit :=
  if s.inited then
    (s, Except.error ("Tree has already been initialized!"))
  else
    let subCount := pm.folderManagers.length + 2
    ({ s with inited := true,
              prManager := some pm,
              disposables := s.disposables ++ List.range' s.nextId subCount,
              nextId := s.nextId + subCount,
              refreshCount := s.refreshCount + 1 },
     Except.ok ())

/-- A root pass that stops at one of the placeholder branches: no manager
attached, manager still `Initializing`, or the GitHub-remote gate failing
(the needs-remotes branch). -/
def placeholderRootPass (s : ProviderState) : Bool :=
  match s.prManager with
  | none => true
  | some pm =>
    pm.state = PRManagerState.Initializing ∨
      (pm.folderManagers.filter (fun m => 0 < m.githubRemotes.length)).length = 0

/-- One root-level resolution pass run after external code has (re)set the
attached manager: models a repository/state change followed by the host
asking for the root again. Returns the state after the pass. -/
def rootPassWith (env : Env) (pm : PullRequestManager) (s : ProviderState) :
    ProviderState :=
  (getChildren env none { s with prManager := some pm }).2

/-- Sample folder manager with a GitHub remote (also a git remote). -/
def fmGit : FolderManager := ⟨"folderA", ["origin"], ["origin"]⟩

/-- Second sample folder manager with a GitHub remote. -/
def fmGit2 : FolderManager := ⟨"folderB", ["origin"], ["origin"]⟩

/-- Sample folder manager with zero remotes. -/
def fmBare : FolderManager := ⟨"folderC", [], []⟩

/-- Sample manager with a single configured folder. -/
def pmOne : PullRequestManager :=
  ⟨PRManagerState.RepositoriesLoaded, [fmGit]⟩

/-- Sample manager with two configured folders, both with remotes. -/
def pmTwo : PullRequestManager :=
  ⟨PRManagerState.RepositoriesLoaded, [fmGit, fmGit2]⟩

/-- Sample manager with two folders, one of them remote-less. -/
def pmMixed : PullRequestManager :=
  ⟨PRManagerState.RepositoriesLoaded, [fmGit, fmBare]⟩

/-- Sample manager whose only folder has no remotes at all. -/
def pmNoRemotes : PullRequestManager :=
  ⟨PRManagerState.RepositoriesLoaded, [fmBare]⟩

/-- Sample environment: folders open, no remotes allow-list configured,
probe resolves to `false`, external builder returns one category node. -/
def envA : Env := ⟨true, none, Except.ok false, 1⟩

/-- A freshly constructed provider: nothing attached, nothing tracked. -/
def sBase : ProviderState := ⟨none, false, [], [], none, 0, [], 0, 0⟩

/-- Sample folder manager whose GitHub-remote accessor reports a remote
while the repository state reports none. -/
def fmGhost : FolderManager := ⟨"folderD", ["origin"], []⟩

/-- Sample manager holding only `fmGhost`. -/
def pmGhost : PullRequestManager :=
  ⟨PRManagerState.RepositoriesLoaded, [fmGhost]⟩

/-- C3: past `Initializing`, with no folder manager reporting a GitHub
remote, `getChildren` resolves through `needsRemotes`: empty under
`NeedsAuthentication`; `[NoMatchingRemotes, ConfigureRemotes]` when the
remotes allow-list is configured; `[NoRemotes]` otherwise. -/
theorem c3_needs_remotes_resolution (env : Env) (el : Option TreeNode)
    (s : ProviderState) (pm : PullRequestManager)
    (hm : s.prManager = some pm)
    (hst : pm.state ≠ PRManagerState.Initializing)
    (hg : (pm.folderManagers.filter (fun m => 0 < m.githubRemotes.length)).length = 0) :
    getChildren env el s = (Except.ok (needsRemotes env pm), s) ∧
    (pm.state = PRManagerState.NeedsAuthentication → needsRemotes env pm = []) ∧
    (pm.state ≠ PRManagerState.NeedsAuthentication → env.remotesSetting.isSome →
      needsRemotes env pm =
        [TreeNode.categoryAction PRCategoryActionType.NoMatchingRemotes,
         TreeNode.categoryAction PRCategoryActionType.ConfigureRemotes]) ∧
    (pm.state ≠ PRManagerState.NeedsAuthentication → env.remotesSetting = none →
      needsRemotes env pm =
        [TreeNode.categoryAction PRCategoryActionType.NoRemotes]) := by
  refine ⟨?_, ?_, ?_, ?_⟩
  · unfold getChildren
    rw [hm]
    simp [hst, hg]
  · intro hauth
    unfold needsRemotes
    simp [hauth]
  · intro hauth hset
    unfold needsRemotes
    simp [hauth, hset]
  · intro hauth hset
    unfold needsRemotes
    simp [hauth, hset]

/-- Witness for C3 at a concrete state: one folder manager with no GitHub
remote and no allow-list configured resolves to `[NoRemotes]`. -/
theorem c3_needs_remotes_resolution_witness :
    getChildren ⟨true, none, Except.ok false, 1⟩ none
        ⟨some ⟨PRManagerState.RepositoriesLoaded, [⟨"f", [], []⟩]⟩,
         true, [], [], none, 0, [], 0, 0⟩ =
      (Except.ok [TreeNode.categoryAction PRCategoryActionType.NoRemotes],
       ⟨some ⟨PRManagerState.RepositoriesLoaded, [⟨"f", [], []⟩]⟩,
        true, [], [], none, 0, [], 0, 0⟩) := by
  have h := c3_needs_remotes_resolution ⟨true, none, Except.ok false, 1⟩ none
    ⟨some ⟨PRManagerState.RepositoriesLoaded, [⟨"f", [], []⟩]⟩,
     true, [], [], none, 0, [], 0, 0⟩
    ⟨PRManagerState.RepositoriesLoaded, [⟨"f", [], []⟩]⟩
    rfl (by decide) (by decide)
  rw [h.1, h.2.2.2 (by decide) rfl]

/-- `isVSO` against a succeeding probe: result is the cached value when one
exists, else the probe's value; the cache holds that value afterwards; a
probe is performed only when the cache was empty. -/
theorem isVSO_ok (b : Bool) (cache : Option Bool) :
    isVSO (Except.ok b) cache =
      (Except.ok (cache.getD b), some (cache.getD b),
       if cache.isSome then 0 else 1) := by
  cases cache <;> rfl

/-- Once the cache holds a value, any number of further sequential calls
return exactly that value and perform zero probes. -/
theorem isVSOcalls_cached (probe : Except Unit Bool) (x : Bool) (n : Nat) :
    isVSOcalls probe n (some x) = (List.replicate n (Except.ok x), some x, 0) := by
  induction n with
  | zero => rfl
  | succ n ih => simp [isVSOcalls, isVSO, ih, List.replicate_succ]

/-- C6: across any sequence of sequential `isVSO` calls in an unchanged
environment (a probe that would deliver `b`), every call returns the same
boolean — the cached value if one existed, otherwise `b` — and the
external probe is performed at most once over the whole sequence. -/
theorem c6_classifier_memoized (b : Bool) (cache : Option Bool) (n : Nat) :
    (isVSOcalls (Except.ok b) n cache).1 =
      List.replicate n (Except.ok (cache.getD b)) ∧
    (isVSOcalls (Except.ok b) n cache).2.2 ≤ 1 := by
  cases cache with
  | some x => simp [isVSOcalls_cached]
  | none =>
    cases n with
    | zero => simp [isVSOcalls]
    | succ n =>
      simp [isVSOcalls, isVSO, isVSOcalls_cached, List.replicate_succ]

/-- C7: a rejecting probe propagates out of `isVSO`, leaves the cache
empty, and the next call probes again — delivering the new probe's value
rather than a poisoned cached `false`. -/
theorem c7_probe_failure_propagates :
    isVSO (Except.error ()) none = (Except.error (), none, 1) ∧
    (∀ b : Bool,
      isVSO (Except.ok b) (isVSO (Except.error ()) none).2.1 =
        (Except.ok b, some b, 1)) :=
  ⟨rfl, fun _ => rfl⟩

/-- C8: after `initialize` has succeeded once, a second `initialize` call
throws instead of being silently ignored. -/
theorem c8_second_init_throws (pm pm2 : PullRequestManager) (s : ProviderState)
    (h : (initTree pm s).2 = Except.ok ()) :
    (initTree pm2 (initTree pm s).1).2 =
      Except.error ("Tree has already been initialized!") := by
  have hi : s.inited = false := by
    cases h' : s.inited
    · rfl
    · unfold initTree at h
      rw [h'] at h
      simp at h
  unfold initTree
  simp [hi]

/-- Witness for C8: a fresh provider accepts the first `initialize` and
rejects the second. -/
theorem c8_second_init_throws_witness :
    (initTree pmOne (initTree pmOne sBase).1).2 =
      Except.error ("Tree has already been initialized!") :=
  c8_second_init_throws pmOne pmOne sBase rfl

/-- C10: when `initialize` throws because the provider was already
initialized, the state is returned untouched — manager reference,
subscription list, flag, counters, and refresh count all unchanged. -/
theorem c10_failed_init_is_pure (pm : PullRequestManager) (s : ProviderState)
    (h : s.inited = true) :
    initTree pm s = (s, Except.error ("Tree has already been initialized!")) := by
  unfold initTree
  simp [h]

/-- Witness for C10: a second `initialize` on an initialized provider
leaves the exact state in place. -/
theorem c10_failed_init_is_pure_witness :
    initTree pmTwo (initTree pmOne sBase).1 =
      ((initTree pmOne sBase).1,
       Except.error ("Tree has already been initialized!")) :=
  c10_failed_init_is_pure pmTwo (initTree pmOne sBase).1 rfl

/-- C9: a root pass that stops in a placeholder branch (no manager,
`Initializing`, or the needs-remotes branch) leaves the provider state —
in particular the tracked generation and the dispose log — completely
unchanged; a root pass that reaches the real-subtree branch disposes
exactly the previously tracked generation. -/
theorem c9_placeholder_pass_frame (env : Env) (s : ProviderState) :
    (placeholderRootPass s = true → (getChildren env none s).2 = s) ∧
    (placeholderRootPass s = false →
      (getChildren env none s).2.disposedLog =
        s.disposedLog ++ s.childrenDisposables) := by
  cases hpm : s.prManager with
  | none =>
    constructor
    · intro _
      unfold getChildren
      rw [hpm]
      by_cases hw : env.workspaceFolders <;> simp [hw]
    · intro hfalse
      simp [placeholderRootPass, hpm] at hfalse
  | some pm =>
    constructor
    · intro hp
      simp only [placeholderRootPass, hpm, decide_eq_true_eq] at hp
      unfold getChildren
      rw [hpm]
      rcases hp with h1 | h2
      · simp [h1]
      · by_cases h1 : pm.state = PRManagerState.Initializing
        · simp [h1]
        · simp [h1, h2]
    · intro hp
      simp only [placeholderRootPass, hpm, decide_eq_false_iff_not, not_or] at hp
      obtain ⟨h1, h2⟩ := hp
      unfold getChildren
      rw [hpm]
      simp only [h1, h2, if_neg, if_false]
      split <;> (try split) <;> simp

/-- Witness for C9: with no manager attached the pass changes nothing, and
a real-subtree pass appends the tracked generation to the dispose log. -/
theorem c9_placeholder_pass_frame_witness :
    (getChildren envA none sBase).2 = sBase ∧
    (getChildren envA none
        { sBase with prManager := some pmTwo,
                     childrenDisposables := [7] }).2.disposedLog = [7] :=
  ⟨(c9_placeholder_pass_frame envA sBase).1 (by decide),
   (c9_placeholder_pass_frame envA
      { sBase with prManager := some pmTwo, childrenDisposables := [7] }).2
     (by decide)⟩

/-- A root pass through the multi-folder branch: the tracked generation is
disposed, the classifier result is computed and cached, one
`WorkspaceFolderNode` per folder manager is materialized, and its
disposables become the new tracked generation. -/
theorem getChildren_rootMulti (env : Env) (s : ProviderState)
    (pm : PullRequestManager) (b : Bool)
    (hm : s.prManager = some pm)
    (hst : pm.state ≠ PRManagerState.Initializing)
    (hg : (pm.folderManagers.filter (fun m => 0 < m.githubRemotes.length)).length ≠ 0)
    (hp : env.probe = Except.ok b)
    (hn : pm.folderManagers.length ≠ 1) :
    getChildren env none s =
      (Except.ok (mkWorkspaceNodes pm.folderManagers (s.isVSOCache.getD b) s.nextId),
       { s with
          disposedLog := s.disposedLog ++ s.childrenDisposables,
          isVSOCache := some (s.isVSOCache.getD b),
          probeCount := s.probeCount + (if s.isVSOCache.isSome then 0 else 1),
          childrenDisposables :=
            generationIds (mkWorkspaceNodes pm.folderManagers (s.isVSOCache.getD b) s.nextId),
          nextId := s.nextId + pm.folderManagers.length }) := by
  unfold getChildren
  rw [hm, hp]
  simp [hst, hg, hn, isVSO_ok]

/-- A root pass through the single-folder branch: the tracked generation is
disposed, but the returned category nodes are not tracked — the tracked
list is left as it was. -/
theorem getChildren_rootSingle (env : Env) (s : ProviderState)
    (pm : PullRequestManager) (b : Bool)
    (hm : s.prManager = some pm)
    (hst : pm.state ≠ PRManagerState.Initializing)
    (hg : (pm.folderManagers.filter (fun m => 0 < m.githubRemotes.length)).length ≠ 0)
    (hp : env.probe = Except.ok b)
    (hn : pm.folderManagers.length = 1) :
    getChildren env none s =
      (Except.ok (getCategoryTreeNodes env.categoryNodeCount s.nextId),
       { s with
          disposedLog := s.disposedLog ++ s.childrenDisposables,
          isVSOCache := some (s.isVSOCache.getD b),
          probeCount := s.probeCount + (if s.isVSOCache.isSome then 0 else 1),
          nextId := s.nextId + env.categoryNodeCount }) := by
  unfold getChildren
  rw [hm, hp]
  simp [hst, hg, hn, isVSO_ok]

/-- A non-root pass past all gates delegates to the element's own
`getChildren` and leaves the provider state untouched. -/
theorem getChildren_childDelegate (env : Env) (el : TreeNode)
    (s : ProviderState) (pm : PullRequestManager)
    (hm : s.prManager = some pm)
    (hst : pm.state ≠ PRManagerState.Initializing)
    (hg : (pm.folderManagers.filter (fun m => 0 < m.githubRemotes.length)).length ≠ 0)
    (hr : (pm.folderManagers.filter (fun m => 0 < m.repoStateRemotes.length)).length ≠ 0) :
    getChildren env (some el) s = (Except.ok el.nodeChildren, s) := by
  unfold getChildren
  rw [hm]
  simp [hst, hg, hr]

/-- A non-root pass past the GitHub-remote gate short-circuits to the
`Empty` placeholder when no folder's repository reports any remote. -/
theorem getChildren_childEmpty (env : Env) (el : TreeNode)
    (s : ProviderState) (pm : PullRequestManager)
    (hm : s.prManager = some pm)
    (hst : pm.state ≠ PRManagerState.Initializing)
    (hg : (pm.folderManagers.filter (fun m => 0 < m.githubRemotes.length)).length ≠ 0)
    (hr : (pm.folderManagers.filter (fun m => 0 < m.repoStateRemotes.length)).length = 0) :
    getChildren env (some el) s =
      (Except.ok [TreeNode.categoryAction PRCategoryActionType.Empty], s) := by
  unfold getChildren
  rw [hm]
  simp [hst, hg, hr]

/-- Every node the external category builder returns is a category node. -/
theorem mem_getCategoryTreeNodes (count baseId : Nat) (x : TreeNode)
    (h : x ∈ getCategoryTreeNodes count baseId) :
    ∃ i, x = TreeNode.category i := by
  unfold getCategoryTreeNodes at h
  simp only [List.mem_map, List.mem_range] at h
  obtain ⟨i, _, hx⟩ := h
  exact ⟨baseId + i, hx.symm⟩

/-- The multi-folder generation has one wrapper per folder manager. -/
theorem mkWorkspaceNodes_length (fms : List FolderManager) (vso : Bool)
    (baseId : Nat) :
    (mkWorkspaceNodes fms vso baseId).length = fms.length := by
  induction fms generalizing baseId with
  | nil => rfl
  | cons fm rest ih => simp [mkWorkspaceNodes, ih]

/-- The `i`-th wrapper of the multi-folder generation wraps the `i`-th
folder manager, in list order, with the `i`-th fresh id. -/
theorem mkWorkspaceNodes_get (fms : List FolderManager) (vso : Bool)
    (baseId i : Nat) (h1 : i < (mkWorkspaceNodes fms vso baseId).length)
    (h2 : i < fms.length) :
    (mkWorkspaceNodes fms vso baseId).get ⟨i, h1⟩ =
      TreeNode.workspaceFolder ((fms.get ⟨i, h2⟩).rootUri) vso (baseId + i) := by
  induction fms generalizing baseId i with
  | nil => exact absurd h2 (by simp)
  | cons fm rest ih =>
    cases i with
    | zero => simp [mkWorkspaceNodes]
    | succ j =>
      have hj1 : j < (mkWorkspaceNodes rest vso (baseId + 1)).length := by
        simpa [mkWorkspaceNodes] using h1
      have hj2 : j < rest.length := by simpa using h2
      have := ih (baseId + 1) j hj1 hj2
      simp only [mkWorkspaceNodes, List.get_cons_succ, this]
      congr 1
      omega

/-- C5: past the GitHub-remote gate, a single-folder workspace is rendered
flat — the folder's own category nodes, never wrapped in a
`WorkspaceFolderNode` — while N>1 folder managers yield exactly N
`WorkspaceFolderNode`s, one per folder manager, in manager-list order. -/
theorem c5_single_flat_multi_wrapped (env : Env) (s : ProviderState)
    (pm : PullRequestManager) (b : Bool)
    (hm : s.prManager = some pm)
    (hst : pm.state ≠ PRManagerState.Initializing)
    (hg : (pm.folderManagers.filter (fun m => 0 < m.githubRemotes.length)).length ≠ 0)
    (hp : env.probe = Except.ok b) :
    (pm.folderManagers.length = 1 →
      (getChildren env none s).1 =
        Except.ok (getCategoryTreeNodes env.categoryNodeCount s.nextId) ∧
      ∀ x ∈ getCategoryTreeNodes env.categoryNodeCount s.nextId,
        x.isWorkspaceFolderNode = false) ∧
    (1 < pm.folderManagers.length →
      ∃ nodes, (getChildren env none s).1 = Except.ok nodes ∧
        nodes.length = pm.folderManagers.length ∧
        ∀ (i : Nat) (h1 : i < nodes.length) (h2 : i < pm.folderManagers.length),
          nodes.get ⟨i, h1⟩ =
            TreeNode.workspaceFolder ((pm.folderManagers.get ⟨i, h2⟩).rootUri)
              (s.isVSOCache.getD b) (s.nextId + i)) := by
  constructor
  · intro hn
    rw [getChildren_rootSingle env s pm b hm hst hg hp hn]
    refine ⟨rfl, ?_⟩
    intro x hx
    obtain ⟨i, rfl⟩ := mem_getCategoryTreeNodes _ _ x hx
    rfl
  · intro hn
    rw [getChildren_rootMulti env s pm b hm hst hg hp (by omega)]
    exact ⟨mkWorkspaceNodes pm.folderManagers (s.isVSOCache.getD b) s.nextId,
      rfl, mkWorkspaceNodes_length _ _ _,
      fun i h1 h2 => mkWorkspaceNodes_get _ _ _ i h1 h2⟩

/-- Witness for C5: a one-folder manager resolves to the flat category
nodes, and a two-folder manager resolves to a two-element root. -/
theorem c5_single_flat_multi_wrapped_witness :
    (getChildren envA none { sBase with prManager := some pmOne }).1 =
      Except.ok (getCategoryTreeNodes envA.categoryNodeCount 0) ∧
    Except.map List.length
        (getChildren envA none { sBase with prManager := some pmTwo }).1 =
      Except.ok 2 := by
  constructor
  · exact ((c5_single_flat_multi_wrapped envA
      { sBase with prManager := some pmOne } pmOne false rfl (by decide)
      (by decide) rfl).1 (by decide)).1
  · obtain ⟨nodes, h1, h2, _⟩ := (c5_single_flat_multi_wrapped envA
      { sBase with prManager := some pmTwo } pmTwo false rfl (by decide)
      (by decide) rfl).2 (by decide)
    rw [h1]
    simp only [Except.map]
    rw [h2]
    rfl

/-- C4: with two folder managers — one with a GitHub remote (hence git
remotes) and `RepositoriesLoaded`, one with zero remotes — the root pass
clears the any-remote gates and yields exactly two `WorkspaceFolderNode`s,
and a later child request under any node is delegated to the node's own
`getChildren` instead of being short-circuited to the `Empty`
placeholder, because both gates test that some folder qualifies. -/
theorem c4_any_remote_gate (env : Env) (s : ProviderState)
    (fm1 fm2 : FolderManager) (b : Bool) (el : TreeNode)
    (hm : s.prManager = some ⟨PRManagerState.RepositoriesLoaded, [fm1, fm2]⟩)
    (h1g : fm1.githubRemotes ≠ [])
    (h1r : fm1.repoStateRemotes ≠ [])
    (h2g : fm2.githubRemotes = [])
    (h2r : fm2.repoStateRemotes = [])
    (hp : env.probe = Except.ok b) :
    (getChildren env none s).1 =
      Except.ok
        [TreeNode.workspaceFolder fm1.rootUri (s.isVSOCache.getD b) s.nextId,
         TreeNode.workspaceFolder fm2.rootUri (s.isVSOCache.getD b) (s.nextId + 1)] ∧
    getChildren env (some el) ((getChildren env none s).2) =
      (Except.ok el.nodeChildren, (getChildren env none s).2) := by
  have hpos1 : 0 < fm1.githubRemotes.length := List.length_pos.mpr h1g
  have hpos1r : 0 < fm1.repoStateRemotes.length := List.length_pos.mpr h1r
  have hg : ((⟨PRManagerState.RepositoriesLoaded, [fm1, fm2]⟩ :
      PullRequestManager).folderManagers.filter
        (fun m => 0 < m.githubRemotes.length)).length ≠ 0 := by
    have hmem : fm1 ∈ ([fm1, fm2] : List FolderManager).filter
        (fun m => 0 < m.githubRemotes.length) := by
      simp [List.mem_filter, hpos1]
    intro hlen
    rw [List.length_eq_zero] at hlen
    rw [hlen] at hmem
    exact absurd hmem (List.not_mem_nil _)
  have hr : ((⟨PRManagerState.RepositoriesLoaded, [fm1, fm2]⟩ :
      PullRequestManager).folderManagers.filter
        (fun m => 0 < m.repoStateRemotes.length)).length ≠ 0 := by
    have hmem : fm1 ∈ ([fm1, fm2] : List FolderManager).filter
        (fun m => 0 < m.repoStateRemotes.length) := by
      simp [List.mem_filter, hpos1r]
    intro hlen
    rw [List.length_eq_zero] at hlen
    rw [hlen] at hmem
    exact absurd hmem (List.not_mem_nil _)
  have hst : (⟨PRManagerState.RepositoriesLoaded, [fm1, fm2]⟩ :
      PullRequestManager).state ≠ PRManagerState.Initializing :=
    fun h => PRManagerState.noConfusion h
  have hn : (⟨PRManagerState.RepositoriesLoaded, [fm1, fm2]⟩ :
      PullRequestManager).folderManagers.length ≠ 1 := by simp
  have hroot := getChildren_rootMulti env s _ b hm hst hg hp hn
  constructor
  · rw [hroot]
    simp [mkWorkspaceNodes]
  · refine getChildren_childDelegate env el _ _ ?_ hst hg hr
    rw [hroot]
    exact hm

/-- Witness for C4 at a concrete two-folder workspace with one remote-less
folder: the root is two wrappers, and a child request on a concrete node
returns that node's own children. -/
theorem c4_any_remote_gate_witness :
    (getChildren envA none { sBase with prManager := some pmMixed }).1 =
      Except.ok
        [TreeNode.workspaceFolder "folderA" false 0,
         TreeNode.workspaceFolder "folderC" false 1] ∧
    getChildren envA (some (TreeNode.plain [TreeNode.category 9]))
        ((getChildren envA none { sBase with prManager := some pmMixed }).2) =
      (Except.ok [TreeNode.category 9],
       (getChildren envA none { sBase with prManager := some pmMixed }).2) :=
  c4_any_remote_gate envA { sBase with prManager := some pmMixed }
    fmGit fmBare false (TreeNode.plain [TreeNode.category 9])
    rfl (by decide) (by decide) rfl rfl rfl

/-- The needs-remotes sub-resolution never produces the `Empty`
placeholder. -/
theorem needsRemotes_ne_empty (env : Env) (pm : PullRequestManager) :
    needsRemotes env pm ≠
      [TreeNode.categoryAction PRCategoryActionType.Empty] := by
  unfold needsRemotes
  by_cases h1 : pm.state = PRManagerState.NeedsAuthentication
  · simp [h1]
  · by_cases h2 : env.remotesSetting.isSome <;> simp [h1, h2]

/-- The external category builder's output is never a lone placeholder. -/
theorem getCategoryTreeNodes_ne_single_action (count baseId : Nat)
    (t : PRCategoryActionType) :
    getCategoryTreeNodes count baseId ≠ [TreeNode.categoryAction t] := by
  intro h
  have hx : TreeNode.categoryAction t ∈ getCategoryTreeNodes count baseId := by
    rw [h]
    exact List.mem_singleton_self _
  obtain ⟨i, hi⟩ := mem_getCategoryTreeNodes count baseId _ hx
  exact absurd hi (by simp)

/-- Every node of the multi-folder generation is a wrapper. -/
theorem mem_mkWorkspaceNodes (fms : List FolderManager) (vso : Bool)
    (baseId : Nat) (x : TreeNode) (h : x ∈ mkWorkspaceNodes fms vso baseId) :
    ∃ u i, x = TreeNode.workspaceFolder u vso i := by
  induction fms generalizing baseId with
  | nil => cases h
  | cons fm rest ih =>
    simp only [mkWorkspaceNodes, List.mem_cons] at h
    rcases h with rfl | h
    · exact ⟨fm.rootUri, baseId, rfl⟩
    · exact ih (baseId + 1) h

/-- The multi-folder generation is never a lone placeholder. -/
theorem mkWorkspaceNodes_ne_single_action (fms : List FolderManager)
    (vso : Bool) (baseId : Nat) (t : PRCategoryActionType) :
    mkWorkspaceNodes fms vso baseId ≠ [TreeNode.categoryAction t] := by
  intro h
  have hx : TreeNode.categoryAction t ∈ mkWorkspaceNodes fms vso baseId := by
    rw [h]
    exact List.mem_singleton_self _
  obtain ⟨u, i, hi⟩ := mem_mkWorkspaceNodes _ _ _ _ hx
  exact absurd hi (by simp)

/-- A root-level pass never resolves to the `Empty` placeholder: every
branch reachable with `element` absent returns other placeholders, the
needs-remotes nodes, a rejection, or real subtree roots. -/
theorem rootPass_ne_empty (env : Env) (s : ProviderState) :
    (getChildren env none s).1 ≠
      Except.ok [TreeNode.categoryAction PRCategoryActionType.Empty] := by
  unfold getChildren
  cases hpm : s.prManager with
  | none => by_cases hw : env.workspaceFolders <;> simp [hw]
  | some pm =>
    by_cases h1 : pm.state = PRManagerState.Initializing
    · simp [h1]
    · by_cases h2 : (pm.folderManagers.filter
          (fun m => 0 < m.githubRemotes.length)).length = 0
      · simp [h1, h2, needsRemotes_ne_empty]
      · simp only [h1, h2, if_neg, if_false]
        split
        · simp
        · split
          · simpa using getCategoryTreeNodes_ne_single_action
              env.categoryNodeCount _ PRCategoryActionType.Empty
          · simpa using mkWorkspaceNodes_ne_single_action
              pm.folderManagers _ _ PRCategoryActionType.Empty

/-- C1 (amended): the `Empty` override is a depth gate, not a root gate —
a pass with an element whose earlier gates all pass short-circuits to
exactly `[Empty]` when no folder manager's repository state reports any
version-control remote, while a root-level pass never resolves to the
`Empty` placeholder. -/
theorem c1_empty_override_child_level (env : Env) (el : TreeNode)
    (s : ProviderState) (pm : PullRequestManager)
    (hm : s.prManager = some pm)
    (hst : pm.state ≠ PRManagerState.Initializing)
    (hg : (pm.folderManagers.filter (fun m => 0 < m.githubRemotes.length)).length ≠ 0)
    (hrepo : ∀ fm ∈ pm.folderManagers, fm.repoStateRemotes = []) :
    getChildren env (some el) s =
      (Except.ok [TreeNode.categoryAction PRCategoryActionType.Empty], s) ∧
    ∀ (env2 : Env) (s2 : ProviderState),
      (getChildren env2 none s2).1 ≠
        Except.ok [TreeNode.categoryAction PRCategoryActionType.Empty] := by
  constructor
  · apply getChildren_childEmpty env el s pm hm hst hg
    have hnil : pm.folderManagers.filter
        (fun m => 0 < m.repoStateRemotes.length) = [] := by
      rw [List.filter_eq_nil_iff]
      intro a ha
      simp [hrepo a ha]
    rw [hnil]
    rfl
  · exact fun env2 s2 => rootPass_ne_empty env2 s2

/-- Witness for C1 (amended): one folder manager with a GitHub remote but
an empty repository remote list; the child-level pass returns `[Empty]`. -/
theorem c1_empty_override_child_level_witness :
    getChildren envA (some (TreeNode.plain []))
        { sBase with prManager := some pmGhost } =
      (Except.ok [TreeNode.categoryAction PRCategoryActionType.Empty],
       { sBase with prManager := some pmGhost }) :=
  (c1_empty_override_child_level envA (TreeNode.plain [])
    { sBase with prManager := some pmGhost } pmGhost
    rfl (by decide) (by decide) (by decide)).1

/-- Counterexample to C1 as stated: at the root (no element), with a
manager whose only folder reports no version-control remote at all, the
pass resolves through needs-remotes to `[NoRemotes]` — not to the single
`Empty` placeholder the claim requires. -/
theorem c1_counterexample :
    List.map FolderManager.repoStateRemotes pmNoRemotes.folderManagers = [[]] ∧
    (getChildren envA none { sBase with prManager := some pmNoRemotes }).1 =
      Except.ok [TreeNode.categoryAction PRCategoryActionType.NoRemotes] ∧
    (Except.ok [TreeNode.categoryAction PRCategoryActionType.NoRemotes] :
        Except Unit (List TreeNode)) ≠
      Except.ok [TreeNode.categoryAction PRCategoryActionType.Empty] := by
  refine ⟨rfl, rfl, by simp⟩

/-- Occurrence count of an id among the disposables of a multi-folder
generation: the generation's ids are exactly the fresh block
`[baseId, baseId + length)`, each occurring once. -/
theorem count_generationIds_mkWorkspaceNodes (fms : List FolderManager)
    (vso : Bool) (baseId i : Nat) :
    (generationIds (mkWorkspaceNodes fms vso baseId)).count i =
      if baseId ≤ i ∧ i < baseId + fms.length then 1 else 0 := by
  induction fms generalizing baseId with
  | nil =>
    have hn : ¬(baseId ≤ i ∧ i < baseId + ([] : List FolderManager).length) := by
      simp only [List.length_nil]
      omega
    rw [if_neg hn]
    rfl
  | cons fm rest ih =>
    have hgen : generationIds (mkWorkspaceNodes (fm :: rest) vso baseId) =
        baseId :: generationIds (mkWorkspaceNodes rest vso (baseId + 1)) := by
      simp [mkWorkspaceNodes, generationIds, TreeNode.attachedId]
    rw [hgen, List.count_cons, ih]
    simp only [List.length_cons, beq_iff_eq]
    split_ifs <;> omega

/-- An id appearing among a multi-folder generation's disposables lies in
that generation's fresh block. -/
theorem mem_generationIds_bounds (fms : List FolderManager) (vso : Bool)
    (baseId i : Nat) (h : i ∈ generationIds (mkWorkspaceNodes fms vso baseId)) :
    baseId ≤ i ∧ i < baseId + fms.length := by
  by_contra hc
  have hcount := count_generationIds_mkWorkspaceNodes fms vso baseId i
  rw [if_neg hc] at hcount
  exact absurd h (List.count_eq_zero.mp hcount)

/-- State effect of a root pass through the multi-folder branch, after the
attached manager has been (re)set: the old generation is appended to the
dispose log and the fresh generation becomes the tracked one. -/
theorem rootPassWith_state (env : Env) (pm : PullRequestManager)
    (s : ProviderState) (b : Bool)
    (hst : pm.state ≠ PRManagerState.Initializing)
    (hg : (pm.folderManagers.filter (fun m => 0 < m.githubRemotes.length)).length ≠ 0)
    (hp : env.probe = Except.ok b)
    (hn : pm.folderManagers.length ≠ 1) :
    rootPassWith env pm s =
      { s with prManager := some pm,
               disposedLog := s.disposedLog ++ s.childrenDisposables,
               isVSOCache := some (s.isVSOCache.getD b),
               probeCount := s.probeCount + (if s.isVSOCache.isSome then 0 else 1),
               childrenDisposables :=
                 generationIds (mkWorkspaceNodes pm.folderManagers
                   (s.isVSOCache.getD b) s.nextId),
               nextId := s.nextId + pm.folderManagers.length } := by
  unfold rootPassWith
  rw [getChildren_rootMulti env { s with prManager := some pm } pm b rfl hst hg hp hn]

/-- C2 (amended): across successive root passes that all take the tracked
multi-folder branch, every disposable attached to generation G1 is
disposed exactly once — during the pass that installs G2 and not again on
the following pass — and no G2 resource is disposed during the pass that
installs G2. (The single-folder branch instead returns an untracked
generation and leaves the tracker stale; see the counterexample.) -/
theorem c2_generation_disposal (env1 env2 env3 : Env)
    (pm1 pm2 pm3 : PullRequestManager) (s0 : ProviderState)
    (b1 b2 b3 : Bool) (hwf : s0.wf)
    (hs1 : pm1.state ≠ PRManagerState.Initializing)
    (hg1 : (pm1.folderManagers.filter (fun m => 0 < m.githubRemotes.length)).length ≠ 0)
    (hp1 : env1.probe = Except.ok b1)
    (hn1 : pm1.folderManagers.length ≠ 1)
    (hs2 : pm2.state ≠ PRManagerState.Initializing)
    (hg2 : (pm2.folderManagers.filter (fun m => 0 < m.githubRemotes.length)).length ≠ 0)
    (hp2 : env2.probe = Except.ok b2)
    (hn2 : pm2.folderManagers.length ≠ 1)
    (hs3 : pm3.state ≠ PRManagerState.Initializing)
    (hg3 : (pm3.folderManagers.filter (fun m => 0 < m.githubRemotes.length)).length ≠ 0)
    (hp3 : env3.probe = Except.ok b3)
    (hn3 : pm3.folderManagers.length ≠ 1) :
    (∀ i ∈ (rootPassWith env1 pm1 s0).childrenDisposables,
        (rootPassWith env2 pm2 (rootPassWith env1 pm1 s0)).disposedLog.count i = 1 ∧
        (rootPassWith env3 pm3 (rootPassWith env2 pm2
            (rootPassWith env1 pm1 s0))).disposedLog.count i = 1) ∧
    (∀ j ∈ (rootPassWith env2 pm2 (rootPassWith env1 pm1 s0)).childrenDisposables,
        (rootPassWith env2 pm2 (rootPassWith env1 pm1 s0)).disposedLog.count j = 0) := by
  rw [rootPassWith_state env1 pm1 s0 b1 hs1 hg1 hp1 hn1]
  rw [rootPassWith_state env2 pm2 _ b2 hs2 hg2 hp2 hn2]
  rw [rootPassWith_state env3 pm3 _ b3 hs3 hg3 hp3 hn3]
  simp only [List.count_append, count_generationIds_mkWorkspaceNodes]
  constructor
  · intro i hi
    have hb := mem_generationIds_bounds pm1.folderManagers _ s0.nextId i hi
    have h0a : s0.disposedLog.count i = 0 :=
      List.count_eq_zero.mpr (fun hmem => absurd (hwf.1 i hmem) (by omega))
    have h0b : s0.childrenDisposables.count i = 0 :=
      List.count_eq_zero.mpr (fun hmem => absurd (hwf.2 i hmem) (by omega))
    refine ⟨?_, ?_⟩ <;> split_ifs <;> omega
  · intro j hj
    have hb := mem_generationIds_bounds pm2.folderManagers _
      (s0.nextId + pm1.folderManagers.length) j hj
    have h0a : s0.disposedLog.count j = 0 :=
      List.count_eq_zero.mpr (fun hmem => absurd (hwf.1 j hmem) (by omega))
    have h0b : s0.childrenDisposables.count j = 0 :=
      List.count_eq_zero.mpr (fun hmem => absurd (hwf.2 j hmem) (by omega))
    split_ifs <;> omega

/-- Witness for C2 (amended): three consecutive two-folder passes; the
first generation's ids are disposed once by the second pass and never
again, and the second generation is untouched while it is installed. -/
theorem c2_generation_disposal_witness :
    (rootPassWith envA pmTwo (rootPassWith envA pmTwo sBase)).disposedLog.count 0 = 1 ∧
    (rootPassWith envA pmTwo (rootPassWith envA pmTwo
        (rootPassWith envA pmTwo sBase))).disposedLog.count 0 = 1 ∧
    (rootPassWith envA pmTwo (rootPassWith envA pmTwo sBase)).disposedLog.count 2 = 0 := by
  have h := c2_generation_disposal envA envA envA pmTwo pmTwo pmTwo sBase
    false false false (by decide)
    (by decide) (by decide) rfl (by decide)
    (by decide) (by decide) rfl (by decide)
    (by decide) (by decide) rfl (by decide)
  exact ⟨(h.1 0 (by decide)).1, (h.1 0 (by decide)).2, h.2 2 (by decide)⟩

/-- Counterexample to C2 as stated: pass 1 (two folders) installs
generation G1 — the wrappers with disposable ids 0 and 1, tracked. Pass 2
(now a single folder) installs generation G2 (`category 2`, untracked)
and disposes G1 once, but because the single-folder branch never updates
the tracker, pass 3 disposes G1's resources a second time: id 0 occurs
twice in the dispose log, refuting "exactly once, and not again on any
later pass". -/
theorem c2_counterexample :
    (rootPassWith envA pmTwo sBase).childrenDisposables = [0, 1] ∧
    (getChildren envA none { rootPassWith envA pmTwo sBase with prManager := some pmOne }).1 = Except.ok [TreeNode.category 2] ∧
    (rootPassWith envA pmOne (rootPassWith envA pmTwo sBase)).disposedLog = [0, 1] ∧
    (rootPassWith envA pmOne (rootPassWith envA pmOne
        (rootPassWith envA pmTwo sBase))).disposedLog = [0, 1, 0, 1] ∧
    (rootPassWith envA pmOne (rootPassWith envA pmOne
        (rootPassWith envA pmTwo sBase))).disposedLog.count 0 = 2 := by
  refine ⟨rfl, rfl, rfl, rfl, by decide⟩
